import Mathlib

/-!
Verification of `callapy` (`src/callapy/model.py`): four closed-form
batch-adsorption solvers (XS, NS, VC, PF) over a `Model` data container.

Embedding conventions:
* Python floats are modelled as exact rationals (`ℚ`).
* A Python scalar division raises `ZeroDivisionError` when the divisor is
  zero; the spec's error taxonomy calls this `DivisionSingularity`.  We model
  every division the solvers perform with the checked division `qdiv`,
  sequenced in Python's left-to-right evaluation order.
* A Python `assert x is not None, msg` raises `AssertionError msg`; the
  spec's taxonomy calls these `MissingCalibration`.  The constructor records
  the optional field whose presence the assert checks together with the
  literal message string from the source.
* `kwargs.pop(key)` raises `KeyError(key)` when `key` is absent; the spec's
  taxonomy calls this `MissingField`.
* `uncertainties.ufloat(0., 0.)` is modelled by the `Ufloat` structure
  (nominal value and standard deviation).
-/

namespace Callapy

/-- Error taxonomy of the spec, as surfaced by the Python code
(`KeyError`, `AssertionError`, `ZeroDivisionError`, numpy broadcast
`ValueError` respectively). -/
inductive ModelError where
  | MissingField (key : String)
  | MissingCalibration (field msg : String)
  | DivisionSingularity
  | ShapeMismatch
  deriving DecidableEq, Repr

/-- `uncertainties.ufloat(v, s)`: a value carrying an uncertainty. -/
structure Ufloat where
  nominal_value : ℚ
  std_dev : ℚ
  deriving DecidableEq, Repr

/-- The `Model` object after a successful `Model.__init__`: the eighteen
attributes the constructor stores (`model.py` lines 209-226). -/
structure Model where
  V_in : ℚ
  d_in : ℚ
  d_eq : ℚ
  m : ℚ
  CA_in : ℚ
  CA_eq : ℚ
  d_A : Option ℚ
  d_S : Option ℚ
  V_p : Option ℚ
  V_units : String
  C_units : String
  m_units : String
  d_units : String
  e_V_in : Option ℚ
  e_d_in : Option ℚ
  e_d_eq : Option ℚ
  e_m : Option ℚ
  e_CA_in : Option ℚ
  deriving DecidableEq, Repr

instance {ε α : Type} [DecidableEq ε] [DecidableEq α] : DecidableEq (Except ε α) := fun x y =>
  match x, y with
  | .ok a, .ok b =>
      if h : a = b then isTrue (by rw [h]) else isFalse (by simp [h])
  | .error e, .error f =>
      if h : e = f then isTrue (by rw [h]) else isFalse (by simp [h])
  | .ok _, .error _ => isFalse (by simp)
  | .error _, .ok _ => isFalse (by simp)

/-- Checked scalar division: Python raises `ZeroDivisionError` (the spec's
`DivisionSingularity`) on a zero divisor. -/
def qdiv (x y : ℚ) : Except ModelError ℚ :=
  if y = 0 then .error .DivisionSingularity else .ok (x / y)

/-- `Model.eval_XS` (`model.py` lines 231-239):
`Q_A = V_in * (CA_in - CA_eq) / m`,
`Q_S = V_in * ((d_in - d_eq) - (CA_in - CA_eq)) / m`, returns
`(Q_A, Q_S, V_in)`. -/
def Model.eval_XS (M : Model) : Except ModelError (ℚ × ℚ × ℚ) :=
  (qdiv (M.V_in * (M.CA_in - M.CA_eq)) M.m).bind fun Q_A =>
  (qdiv (M.V_in * ((M.d_in - M.d_eq) - (M.CA_in - M.CA_eq))) M.m).bind fun Q_S =>
  .ok (Q_A, Q_S, M.V_in)

/-- `Model.eval_NS` (`model.py` lines 241-250):
`Q_A = V_in * (d_in - CA_in / CA_eq * d_eq) / (1 - d_eq / CA_eq) / m`,
`V_eq = (V_in * CA_in - m * Q_A) / CA_eq`, `Q_S = ufloat(0., 0.)`;
the divisions appear in Python's evaluation order. -/
def Model.eval_NS (M : Model) : Except ModelError (ℚ × Ufloat × ℚ) :=
  (qdiv M.CA_in M.CA_eq).bind fun r1 =>
  (qdiv M.d_eq M.CA_eq).bind fun r2 =>
  (qdiv (M.V_in * (M.d_in - r1 * M.d_eq)) (1 - r2)).bind fun r3 =>
  (qdiv r3 M.m).bind fun Q_A =>
  (qdiv (M.V_in * M.CA_in - M.m * Q_A) M.CA_eq).bind fun V_eq =>
  .ok (Q_A, ⟨0, 0⟩, V_eq)

/-- `Model.eval_VC` (`model.py` lines 252-263): asserts `d_A is not None`,
then `Q_A = V_in * (CA_in - CA_eq) / (m * (1 - CA_eq / d_A))`,
`V_eq = V_in - m * Q_A / d_A`,
`Q_S = (V_in * d_in - V_eq * d_eq - m * Q_A) / m`. -/
def Model.eval_VC (M : Model) : Except ModelError (ℚ × ℚ × ℚ) :=
  match M.d_A with
  | none => .error (.MissingCalibration "d_A" "Adsorbed density needed for VC method")
  | some dA =>
    (qdiv M.CA_eq dA).bind fun r1 =>
    (qdiv (M.V_in * (M.CA_in - M.CA_eq)) (M.m * (1 - r1))).bind fun Q_A =>
    (qdiv (M.m * Q_A) dA).bind fun r2 =>
    (qdiv (M.V_in * M.d_in - (M.V_in - r2) * M.d_eq - M.m * Q_A) M.m).bind fun Q_S =>
    .ok (Q_A, Q_S, M.V_in - r2)

/-- `Model.PF` (`model.py` lines 265-281): asserts, in source order,
`d_A is not None`, `V_p is not None`, `d_S is not None`, then
`Q_A = (CA_in - (d_in/d_eq - V_p*d_S*m/(V_in*d_eq)) * CA_eq)
       / (m/V_in * (1 + (d_S/d_A - 1) * CA_eq / d_eq))`,
`Q_S = (V_p - Q_A/d_A) * d_S`,
`V_eq = (V_in * CA_in - m * Q_A) / CA_eq`;
the divisions appear in Python's evaluation order. -/
def Model.PF (M : Model) : Except ModelError (ℚ × ℚ × ℚ) :=
  match M.d_A with
  | none => .error (.MissingCalibration "d_A" "Adsorbed density needed for PC")
  | some dA =>
  match M.V_p with
  | none => .error (.MissingCalibration "V_p" "Pore volume needed for PF method")
  | some Vp =>
  match M.d_S with
  | none => .error (.MissingCalibration "d_S" "Adsorbed density needed for VC method")
  | some dS =>
    (qdiv M.d_in M.d_eq).bind fun r1 =>
    (qdiv (Vp * dS * M.m) (M.V_in * M.d_eq)).bind fun r2 =>
    (qdiv M.m M.V_in).bind fun r3 =>
    (qdiv dS dA).bind fun r4 =>
    (qdiv ((r4 - 1) * M.CA_eq) M.d_eq).bind fun r5 =>
    (qdiv (M.CA_in - (r1 - r2) * M.CA_eq) (r3 * (1 + r5))).bind fun Q_A =>
    (qdiv Q_A dA).bind fun r6 =>
    (qdiv (M.V_in * M.CA_in - M.m * Q_A) M.CA_eq).bind fun V_eq =>
    .ok (Q_A, (Vp - r6) * dS, V_eq)

/-! ## Construction (`Model.__init__`, `model.py` lines 208-226)

`Model(**kwargs)` pops the six mandatory numeric fields and the four unit
labels with `kwargs.pop(key)` (raising `KeyError(key)`, the spec's
`MissingField`, when absent), pops `d_A`, `d_S`, `V_p` and the five `e_*`
uncertainty fields with a `None` default, and never touches any other
keyword argument: unknown keys simply stay in the `kwargs` dict and the
documented `e_CA_eq` is never popped or stored. -/

/-- The keyword arguments of a `Model(...)` call: one optional slot per key
the constructor pops, the documented-but-ignored `e_CA_eq`, and the names
of any other keyword arguments supplied. -/
structure PyKwargs where
  V_in : Option ℚ := none
  d_in : Option ℚ := none
  d_eq : Option ℚ := none
  m : Option ℚ := none
  CA_in : Option ℚ := none
  CA_eq : Option ℚ := none
  d_A : Option ℚ := none
  d_S : Option ℚ := none
  V_p : Option ℚ := none
  V_units : Option String := none
  C_units : Option String := none
  m_units : Option String := none
  d_units : Option String := none
  e_V_in : Option ℚ := none
  e_d_in : Option ℚ := none
  e_d_eq : Option ℚ := none
  e_m : Option ℚ := none
  e_CA_in : Option ℚ := none
  e_CA_eq : Option ℚ := none
  extra : List String := []
  deriving DecidableEq, Repr

/-- `kwargs.pop(key)` with no default: `KeyError(key)` (the spec's
`MissingField`) when the key is absent. -/
def popMandatory {α : Type} (v : Option α) (key : String) : Except ModelError α :=
  match v with
  | some x => .ok x
  | none => .error (.MissingField key)

/-- `Model.__init__` (`model.py` lines 208-226): the pops in source order.
`d_A`, `d_S`, `V_p` and the `e_*` fields are popped with default `None` and
cannot fail; the unit labels are popped without a default. -/
def Model.init (kw : PyKwargs) : Except ModelError Model :=
  (popMandatory kw.V_in "V_in").bind fun V_in =>
  (popMandatory kw.d_in "d_in").bind fun d_in =>
  (popMandatory kw.d_eq "d_eq").bind fun d_eq =>
  (popMandatory kw.m "m").bind fun m =>
  (popMandatory kw.CA_in "CA_in").bind fun CA_in =>
  (popMandatory kw.CA_eq "CA_eq").bind fun CA_eq =>
  (popMandatory kw.V_units "V_units").bind fun V_units =>
  (popMandatory kw.C_units "C_units").bind fun C_units =>
  (popMandatory kw.m_units "m_units").bind fun m_units =>
  (popMandatory kw.d_units "d_units").bind fun d_units =>
  .ok { V_in := V_in, d_in := d_in, d_eq := d_eq, m := m, CA_in := CA_in, CA_eq := CA_eq,
        d_A := kw.d_A, d_S := kw.d_S, V_p := kw.V_p,
        V_units := V_units, C_units := C_units, m_units := m_units, d_units := d_units,
        e_V_in := kw.e_V_in, e_d_in := kw.e_d_in, e_d_eq := kw.e_d_eq,
        e_m := kw.e_m, e_CA_in := kw.e_CA_in }

/-! ## Batched (numpy array) evaluation

When the `Model` fields hold equal-length numpy arrays, the very same
formula lines operate element-wise.  numpy combines two 1-d arrays when
their lengths are equal or one of them is 1 (broadcasting), and raises a
`ValueError` (the spec's `ShapeMismatch`) otherwise, at the moment the
offending operation is executed — `Model.__init__` performs no shape check.
numpy element-wise division by zero yields `inf`/`nan` with a warning
rather than raising, so batched division is modelled as total.  A Python
scalar combined with an array applies element-wise with no shape
constraint (`List.map`); the optional calibrations stay scalars, as in the
docstring's types (`V_p : float`), so the only scalar-scalar division in
batch mode is PF's `d_S / d_A`, which can still raise
`ZeroDivisionError` and is modelled with `qdiv`. -/

/-- One numpy binary operation on two 1-d arrays: element-wise when the
lengths are equal, broadcasting when one operand has length 1, and a
`ValueError` (the spec's `ShapeMismatch`) otherwise. -/
def broadcast2 (f : ℚ → ℚ → ℚ) (xs ys : List ℚ) : Except ModelError (List ℚ) :=
  if xs.length = ys.length then .ok (List.zipWith f xs ys)
  else
    match xs, ys with
    | [x], ys => .ok (ys.map (fun y => f x y))
    | xs, [y] => .ok (xs.map (fun x => f x y))
    | _, _ => .error .ShapeMismatch

/-- The six mandatory `Model` fields as numpy 1-d arrays, plus the three
optional calibrations, which remain Python scalars. -/
structure BatchModel where
  V_in : List ℚ
  d_in : List ℚ
  d_eq : List ℚ
  m : List ℚ
  CA_in : List ℚ
  CA_eq : List ℚ
  d_A : Option ℚ := none
  d_S : Option ℚ := none
  V_p : Option ℚ := none
  deriving DecidableEq, Repr

/-- `Model.eval_XS` on array-valued fields: the same two formula lines,
each numpy operation performed in Python's evaluation order. -/
def BatchModel.eval_XS (B : BatchModel) : Except ModelError (List ℚ × List ℚ × List ℚ) :=
  (broadcast2 (fun x y => x - y) B.CA_in B.CA_eq).bind fun t1 =>
  (broadcast2 (fun x y => x * y) B.V_in t1).bind fun t2 =>
  (broadcast2 (fun x y => x / y) t2 B.m).bind fun Q_A =>
  (broadcast2 (fun x y => x - y) B.d_in B.d_eq).bind fun s1 =>
  (broadcast2 (fun x y => x - y) B.CA_in B.CA_eq).bind fun s2 =>
  (broadcast2 (fun x y => x - y) s1 s2).bind fun s3 =>
  (broadcast2 (fun x y => x * y) B.V_in s3).bind fun s4 =>
  (broadcast2 (fun x y => x / y) s4 B.m).bind fun Q_S =>
  .ok (Q_A, Q_S, B.V_in)

/-- `Model.eval_NS` on array-valued fields: the same formula lines, each
numpy operation in Python's evaluation order; `1 - ...` is a scalar-array
subtraction and `Q_S = ufloat(0., 0.)` stays a single Python scalar (the
source's todo: `change form if more than one data point`). -/
def BatchModel.eval_NS (B : BatchModel) : Except ModelError (List ℚ × Ufloat × List ℚ) :=
  (broadcast2 (fun x y => x / y) B.CA_in B.CA_eq).bind fun r1 =>
  (broadcast2 (fun x y => x * y) r1 B.d_eq).bind fun r2 =>
  (broadcast2 (fun x y => x - y) B.d_in r2).bind fun r3 =>
  (broadcast2 (fun x y => x * y) B.V_in r3).bind fun r4 =>
  (broadcast2 (fun x y => x / y) B.d_eq B.CA_eq).bind fun r5 =>
  (broadcast2 (fun x y => x / y) r4 (r5.map (fun y => 1 - y))).bind fun r6 =>
  (broadcast2 (fun x y => x / y) r6 B.m).bind fun Q_A =>
  (broadcast2 (fun x y => x * y) B.V_in B.CA_in).bind fun w1 =>
  (broadcast2 (fun x y => x * y) B.m Q_A).bind fun w2 =>
  (broadcast2 (fun x y => x - y) w1 w2).bind fun w3 =>
  (broadcast2 (fun x y => x / y) w3 B.CA_eq).bind fun V_eq =>
  .ok (Q_A, ⟨0, 0⟩, V_eq)

/-- `Model.eval_VC` on array-valued fields: `CA_eq / d_A` is an
array-scalar division, `1 - ...` a scalar-array subtraction, everything
else array-array, each in Python's evaluation order. -/
def BatchModel.eval_VC (B : BatchModel) : Except ModelError (List ℚ × List ℚ × List ℚ) :=
  match B.d_A with
  | none => .error (.MissingCalibration "d_A" "Adsorbed density needed for VC method")
  | some a =>
    (broadcast2 (fun x y => x - y) B.CA_in B.CA_eq).bind fun t1 =>
    (broadcast2 (fun x y => x * y) B.V_in t1).bind fun t2 =>
    (broadcast2 (fun x y => x * y) B.m
      ((B.CA_eq.map (fun x => x / a)).map (fun y => 1 - y))).bind fun den =>
    (broadcast2 (fun x y => x / y) t2 den).bind fun Q_A =>
    (broadcast2 (fun x y => x * y) B.m Q_A).bind fun u1 =>
    (broadcast2 (fun x y => x - y) B.V_in (u1.map (fun x => x / a))).bind fun V_eq =>
    (broadcast2 (fun x y => x * y) B.V_in B.d_in).bind fun s1 =>
    (broadcast2 (fun x y => x * y) V_eq B.d_eq).bind fun s2 =>
    (broadcast2 (fun x y => x - y) s1 s2).bind fun s3 =>
    (broadcast2 (fun x y => x * y) B.m Q_A).bind fun u2 =>
    (broadcast2 (fun x y => x - y) s3 u2).bind fun s4 =>
    (broadcast2 (fun x y => x / y) s4 B.m).bind fun Q_S =>
    .ok (Q_A, Q_S, V_eq)

/-- `Model.PF` on array-valued fields: `V_p * d_S * m` and
`(d_S/d_A - 1) * CA_eq` are scalar-array products, `1 + ...` and
`V_p - ...` scalar-array sums, `Q_A / d_A` and `... * d_S` array-scalar;
`d_S / d_A` is the one scalar-scalar division (checked, as in Python);
everything else array-array, each in Python's evaluation order. -/
def BatchModel.PF (B : BatchModel) : Except ModelError (List ℚ × List ℚ × List ℚ) :=
  match B.d_A with
  | none => .error (.MissingCalibration "d_A" "Adsorbed density needed for PC")
  | some a =>
  match B.V_p with
  | none => .error (.MissingCalibration "V_p" "Pore volume needed for PF method")
  | some p =>
  match B.d_S with
  | none => .error (.MissingCalibration "d_S" "Adsorbed density needed for VC method")
  | some s =>
    (broadcast2 (fun x y => x / y) B.d_in B.d_eq).bind fun r1 =>
    (broadcast2 (fun x y => x * y) B.V_in B.d_eq).bind fun u1 =>
    (broadcast2 (fun x y => x / y) (B.m.map (fun x => p * s * x)) u1).bind fun r2 =>
    (broadcast2 (fun x y => x - y) r1 r2).bind fun r3 =>
    (broadcast2 (fun x y => x * y) r3 B.CA_eq).bind fun r4 =>
    (broadcast2 (fun x y => x - y) B.CA_in r4).bind fun num =>
    (broadcast2 (fun x y => x / y) B.m B.V_in).bind fun g1 =>
    (qdiv s a).bind fun c2 =>
    (broadcast2 (fun x y => x / y) (B.CA_eq.map (fun x => (c2 - 1) * x)) B.d_eq).bind fun h2 =>
    (broadcast2 (fun x y => x * y) g1 (h2.map (fun y => 1 + y))).bind fun den =>
    (broadcast2 (fun x y => x / y) num den).bind fun Q_A =>
    let Q_S := ((Q_A.map (fun x => x / a)).map (fun y => p - y)).map (fun z => z * s)
    (broadcast2 (fun x y => x * y) B.V_in B.CA_in).bind fun w1 =>
    (broadcast2 (fun x y => x * y) B.m Q_A).bind fun w2 =>
    (broadcast2 (fun x y => x - y) w1 w2).bind fun w3 =>
    (broadcast2 (fun x y => x / y) w3 B.CA_eq).bind fun V_eq =>
    .ok (Q_A, Q_S, V_eq)

/-! ## Conservation laws -/

/-- The two conservation laws the module docstring states
(`total_mb` and `component_mb`): total mass balance
`V_in * d_in = V_eq * d_eq + m * (Q_A + Q_S)` and solute mass balance
`V_in * CA_in = V_eq * CA_eq + m * Q_A`. -/
def massBalances (M : Model) (Q_A Q_S V_eq : ℚ) : Prop :=
  M.V_in * M.d_in = V_eq * M.d_eq + M.m * (Q_A + Q_S) ∧
  M.V_in * M.CA_in = V_eq * M.CA_eq + M.m * Q_A

/-- The PF solute loading exactly as the code computes it, given the three
calibration values `d_A = a`, `V_p = p`, `d_S = s`. -/
def pfQA (M : Model) (a p s : ℚ) : ℚ :=
  (M.CA_in - (M.d_in / M.d_eq - p * s * M.m / (M.V_in * M.d_eq)) * M.CA_eq)
    / (M.m / M.V_in * (1 + (s / a - 1) * M.CA_eq / M.d_eq))

/-! ## Success characterisations of the four solvers -/

lemma eval_XS_eq (M : Model) (hm : M.m ≠ 0) :
    M.eval_XS = .ok (M.V_in * (M.CA_in - M.CA_eq) / M.m,
      M.V_in * ((M.d_in - M.d_eq) - (M.CA_in - M.CA_eq)) / M.m, M.V_in) := by
  simp [Model.eval_XS, qdiv, hm, Except.bind]

lemma eval_XS_ok (M : Model) (t : ℚ × ℚ × ℚ) (h : M.eval_XS = .ok t) :
    M.m ≠ 0 ∧ t = (M.V_in * (M.CA_in - M.CA_eq) / M.m,
      M.V_in * ((M.d_in - M.d_eq) - (M.CA_in - M.CA_eq)) / M.m, M.V_in) := by
  by_cases hm : M.m = 0
  · simp [Model.eval_XS, qdiv, hm, Except.bind] at h
  · rw [eval_XS_eq M hm] at h
    exact ⟨hm, (Except.ok.inj h).symm⟩

lemma eval_NS_eq (M : Model) (hc : M.CA_eq ≠ 0) (hd : 1 - M.d_eq / M.CA_eq ≠ 0)
    (hm : M.m ≠ 0) :
    M.eval_NS = .ok
      (M.V_in * (M.d_in - M.CA_in / M.CA_eq * M.d_eq) / (1 - M.d_eq / M.CA_eq) / M.m,
       ⟨0, 0⟩,
       (M.V_in * M.CA_in
         - M.m * (M.V_in * (M.d_in - M.CA_in / M.CA_eq * M.d_eq)
                    / (1 - M.d_eq / M.CA_eq) / M.m)) / M.CA_eq) := by
  simp [Model.eval_NS, qdiv, hc, hd, hm, Except.bind]

lemma eval_NS_ok (M : Model) (t : ℚ × Ufloat × ℚ) (h : M.eval_NS = .ok t) :
    M.CA_eq ≠ 0 ∧ 1 - M.d_eq / M.CA_eq ≠ 0 ∧ M.m ≠ 0 ∧ t =
      (M.V_in * (M.d_in - M.CA_in / M.CA_eq * M.d_eq) / (1 - M.d_eq / M.CA_eq) / M.m,
       ⟨0, 0⟩,
       (M.V_in * M.CA_in
         - M.m * (M.V_in * (M.d_in - M.CA_in / M.CA_eq * M.d_eq)
                    / (1 - M.d_eq / M.CA_eq) / M.m)) / M.CA_eq) := by
  by_cases hc : M.CA_eq = 0
  · simp [Model.eval_NS, qdiv, hc, Except.bind] at h
  · by_cases hd : 1 - M.d_eq / M.CA_eq = 0
    · simp [Model.eval_NS, qdiv, hc, hd, Except.bind] at h
    · by_cases hm : M.m = 0
      · simp [Model.eval_NS, qdiv, hc, hd, hm, Except.bind] at h
      · rw [eval_NS_eq M hc hd hm] at h
        exact ⟨hc, hd, hm, (Except.ok.inj h).symm⟩

lemma eval_VC_eq (M : Model) (a : ℚ) (hA : M.d_A = some a) (ha : a ≠ 0)
    (hden : M.m * (1 - M.CA_eq / a) ≠ 0) (hm : M.m ≠ 0) :
    M.eval_VC = .ok
      (M.V_in * (M.CA_in - M.CA_eq) / (M.m * (1 - M.CA_eq / a)),
       (M.V_in * M.d_in
          - (M.V_in - M.m * (M.V_in * (M.CA_in - M.CA_eq) / (M.m * (1 - M.CA_eq / a))) / a)
              * M.d_eq
          - M.m * (M.V_in * (M.CA_in - M.CA_eq) / (M.m * (1 - M.CA_eq / a)))) / M.m,
       M.V_in - M.m * (M.V_in * (M.CA_in - M.CA_eq) / (M.m * (1 - M.CA_eq / a))) / a) := by
  simp [Model.eval_VC, hA, qdiv, ha, hden, hm, Except.bind]

lemma eval_VC_ok (M : Model) (t : ℚ × ℚ × ℚ) (h : M.eval_VC = .ok t) :
    ∃ a, M.d_A = some a ∧ a ≠ 0 ∧ M.m * (1 - M.CA_eq / a) ≠ 0 ∧ M.m ≠ 0 ∧ t =
      (M.V_in * (M.CA_in - M.CA_eq) / (M.m * (1 - M.CA_eq / a)),
       (M.V_in * M.d_in
          - (M.V_in - M.m * (M.V_in * (M.CA_in - M.CA_eq) / (M.m * (1 - M.CA_eq / a))) / a)
              * M.d_eq
          - M.m * (M.V_in * (M.CA_in - M.CA_eq) / (M.m * (1 - M.CA_eq / a)))) / M.m,
       M.V_in - M.m * (M.V_in * (M.CA_in - M.CA_eq) / (M.m * (1 - M.CA_eq / a))) / a) := by
  match hA : M.d_A with
  | none => simp [Model.eval_VC, hA] at h
  | some a =>
    refine ⟨a, rfl, ?_⟩
    by_cases ha : a = 0
    · simp [Model.eval_VC, hA, qdiv, ha, Except.bind] at h
    · by_cases hden : M.m * (1 - M.CA_eq / a) = 0
      · simp [Model.eval_VC, hA, qdiv, ha, hden, Except.bind] at h
      · by_cases hm : M.m = 0
        · exact absurd (by rw [hm, zero_mul]) hden
        · rw [eval_VC_eq M a hA ha hden hm] at h
          exact ⟨ha, hden, hm, (Except.ok.inj h).symm⟩

lemma eval_PF_eq (M : Model) (a p s : ℚ)
    (hA : M.d_A = some a) (hP : M.V_p = some p) (hS : M.d_S = some s)
    (hde : M.d_eq ≠ 0) (hv : M.V_in ≠ 0) (ha : a ≠ 0)
    (hden : M.m / M.V_in * (1 + (s / a - 1) * M.CA_eq / M.d_eq) ≠ 0)
    (hc : M.CA_eq ≠ 0) :
    M.PF = .ok (pfQA M a p s, (p - pfQA M a p s / a) * s,
      (M.V_in * M.CA_in - M.m * pfQA M a p s) / M.CA_eq) := by
  simp only [Model.PF, hA, hP, hS, qdiv, if_neg hde, if_neg (mul_ne_zero hv hde),
    if_neg hv, if_neg ha, if_neg hden, if_neg hc, Except.bind, pfQA]

lemma eval_PF_ok (M : Model) (t : ℚ × ℚ × ℚ) (h : M.PF = .ok t) :
    ∃ a p s, M.d_A = some a ∧ M.V_p = some p ∧ M.d_S = some s ∧
      M.d_eq ≠ 0 ∧ M.V_in ≠ 0 ∧ a ≠ 0 ∧
      M.m / M.V_in * (1 + (s / a - 1) * M.CA_eq / M.d_eq) ≠ 0 ∧ M.CA_eq ≠ 0 ∧
      t = (pfQA M a p s, (p - pfQA M a p s / a) * s,
        (M.V_in * M.CA_in - M.m * pfQA M a p s) / M.CA_eq) := by
  match hA : M.d_A with
  | none => simp [Model.PF, hA] at h
  | some a =>
  match hP : M.V_p with
  | none => simp [Model.PF, hA, hP] at h
  | some p =>
  match hS : M.d_S with
  | none => simp [Model.PF, hA, hP, hS] at h
  | some s =>
  refine ⟨a, p, s, rfl, rfl, rfl, ?_⟩
  by_cases hde : M.d_eq = 0
  · simp only [Model.PF, hA, hP, hS, qdiv, if_pos hde, Except.bind] at h
    exact Except.noConfusion h
  · by_cases hv : M.V_in = 0
    · simp only [Model.PF, hA, hP, hS, qdiv, if_neg hde,
        if_pos (by rw [hv, zero_mul] : M.V_in * M.d_eq = 0), Except.bind] at h
      exact Except.noConfusion h
    · by_cases ha : a = 0
      · simp only [Model.PF, hA, hP, hS, qdiv, if_neg hde, if_neg (mul_ne_zero hv hde),
          if_neg hv, if_pos ha, Except.bind] at h
        exact Except.noConfusion h
      · by_cases hden : M.m / M.V_in * (1 + (s / a - 1) * M.CA_eq / M.d_eq) = 0
        · simp only [Model.PF, hA, hP, hS, qdiv, if_neg hde, if_neg (mul_ne_zero hv hde),
            if_neg hv, if_neg ha, if_pos hden, Except.bind] at h
          exact Except.noConfusion h
        · by_cases hc : M.CA_eq = 0
          · simp only [Model.PF, hA, hP, hS, qdiv, if_neg hde, if_neg (mul_ne_zero hv hde),
              if_neg hv, if_neg ha, if_neg hden, if_pos hc, Except.bind] at h
            exact Except.noConfusion h
          · rw [eval_PF_eq M a p s hA hP hS hde hv ha hden hc] at h
            exact ⟨hde, hv, ha, hden, hc, (Except.ok.inj h).symm⟩

/-! ## Mass-balance lemmas, one per solver -/

lemma XS_balance (M : Model) (t : ℚ × ℚ × ℚ) (h : M.eval_XS = .ok t) :
    massBalances M t.1 t.2.1 t.2.2 := by
  obtain ⟨hm, rfl⟩ := eval_XS_ok M t h
  constructor <;> (field_simp; try ring)

lemma NS_balance (M : Model) (t : ℚ × Ufloat × ℚ) (h : M.eval_NS = .ok t) :
    massBalances M t.1 t.2.1.nominal_value t.2.2 := by
  obtain ⟨hc, hd, hm, rfl⟩ := eval_NS_ok M t h
  have hsub : M.CA_eq - M.d_eq ≠ 0 := by
    intro h0
    apply hd
    rw [show M.d_eq = M.CA_eq from by linarith]
    field_simp
  constructor
  · show M.V_in * M.d_in = _ * M.d_eq + M.m * (_ + (0 : ℚ))
    field_simp
    try ring
  · field_simp
    try ring

lemma VC_balance (M : Model) (t : ℚ × ℚ × ℚ) (h : M.eval_VC = .ok t) :
    massBalances M t.1 t.2.1 t.2.2 := by
  obtain ⟨a, hA, ha, hden, hm, rfl⟩ := eval_VC_ok M t h
  have hfac : 1 - M.CA_eq / a ≠ 0 := fun h0 => hden (by rw [h0, mul_zero])
  have hsub : a - M.CA_eq ≠ 0 := by
    intro h0
    apply hfac
    rw [show M.CA_eq = a from by linarith]
    field_simp
  constructor
  · field_simp
    try ring
  · field_simp
    try ring

lemma PF_balance (M : Model) (t : ℚ × ℚ × ℚ) (h : M.PF = .ok t) :
    massBalances M t.1 t.2.1 t.2.2 := by
  obtain ⟨a, p, s, hA, hP, hS, hde, hv, ha, hden, hc, rfl⟩ := eval_PF_ok M t h
  have hm : M.m ≠ 0 := by
    intro h0
    exact hden (by rw [h0, zero_div, zero_mul])
  have key : 1 + (s / a - 1) * M.CA_eq / M.d_eq
      = (a * M.d_eq + (s - a) * M.CA_eq) / (a * M.d_eq) := by
    field_simp
    try ring
  have hK : a * M.d_eq + (s - a) * M.CA_eq ≠ 0 := by
    intro h0
    apply hden
    rw [key, h0, zero_div, mul_zero]
  have hQ : pfQA M a p s
      = (M.CA_in * M.V_in * M.d_eq - (M.d_in * M.V_in - p * s * M.m) * M.CA_eq) * a
        / (M.m * (a * M.d_eq + (s - a) * M.CA_eq)) := by
    rw [pfQA]
    rw [key]
    field_simp
    try ring
  constructor
  · show M.V_in * M.d_in
      = (M.V_in * M.CA_in - M.m * pfQA M a p s) / M.CA_eq * M.d_eq
        + M.m * (pfQA M a p s + (p - pfQA M a p s / a) * s)
    rw [hQ]
    field_simp
    try ring
  · show M.V_in * M.CA_in
      = (M.V_in * M.CA_in - M.m * pfQA M a p s) / M.CA_eq * M.CA_eq
        + M.m * pfQA M a p s
    rw [hQ]
    field_simp
    try ring

/-! ## Claims -/

/-- Concrete valid measurement used by witnesses: all four solvers succeed. -/
def Mwit : Model :=
  { V_in := 1, d_in := 2, d_eq := 1, m := 1, CA_in := 3, CA_eq := 2,
    d_A := some 4, d_S := some 1, V_p := some 1,
    V_units := "mL", C_units := "mol/mL", m_units := "g", d_units := "g/mL",
    e_V_in := none, e_d_in := none, e_d_eq := none, e_m := none, e_CA_in := none }

/-- The spec's concrete XS scenario:
`V_in=0.1, d_in=1.0, d_eq=0.99, m=0.05, CA_in=0.02, CA_eq=0.01`. -/
def Mspec : Model :=
  { V_in := 1/10, d_in := 1, d_eq := 99/100, m := 1/20, CA_in := 1/50, CA_eq := 1/100,
    d_A := none, d_S := none, V_p := none,
    V_units := "L", C_units := "g/L", m_units := "g", d_units := "g/L",
    e_V_in := none, e_d_in := none, e_d_eq := none, e_m := none, e_CA_in := none }

/-- C1: whichever of the four solvers is applied, any returned triple
`(Q_A, Q_S, V_eq)` satisfies both conservation laws exactly (a solver
returns a triple precisely when every denominator it divides by is nonzero
and, for VC and PF, the required calibrations are present). -/
theorem mass_balance_round_trip (M : Model) :
    (∀ t, M.eval_XS = .ok t → massBalances M t.1 t.2.1 t.2.2) ∧
    (∀ t, M.eval_NS = .ok t → massBalances M t.1 t.2.1.nominal_value t.2.2) ∧
    (∀ t, M.eval_VC = .ok t → massBalances M t.1 t.2.1 t.2.2) ∧
    (∀ t, M.PF = .ok t → massBalances M t.1 t.2.1 t.2.2) :=
  ⟨XS_balance M, NS_balance M, VC_balance M, PF_balance M⟩

theorem mass_balance_round_trip_witness :
    massBalances Mwit 1 0 1 ∧ massBalances Mwit 1 0 1 ∧
    massBalances Mwit 2 (-(1/2)) (1/2) ∧ massBalances Mwit (-2) (3/2) (5/2) :=
  ⟨(mass_balance_round_trip Mwit).1 (1, 0, 1)
      (by norm_num [Mwit, Model.eval_XS, qdiv, Except.bind]),
   (mass_balance_round_trip Mwit).2.1 (1, ⟨0, 0⟩, 1)
      (by norm_num [Mwit, Model.eval_NS, qdiv, Except.bind]),
   (mass_balance_round_trip Mwit).2.2.1 (2, -(1/2), 1/2)
      (by norm_num [Mwit, Model.eval_VC, qdiv, Except.bind]),
   (mass_balance_round_trip Mwit).2.2.2 (-2, 3/2, 5/2)
      (by norm_num [Mwit, Model.PF, qdiv, Except.bind])⟩

/-- C2: on any measurement with nonzero adsorbent mass (the data model
requires `m > 0`), XS returns exactly
`Q_A = V_in * (CA_in - CA_eq) / m`,
`Q_S = V_in * ((d_in - d_eq) - (CA_in - CA_eq)) / m`, `V_eq = V_in`. -/
theorem eval_XS_formulas (M : Model) (hm : M.m ≠ 0) :
    M.eval_XS = .ok (M.V_in * (M.CA_in - M.CA_eq) / M.m,
      M.V_in * ((M.d_in - M.d_eq) - (M.CA_in - M.CA_eq)) / M.m, M.V_in) :=
  eval_XS_eq M hm

theorem eval_XS_formulas_witness :
    Mspec.m ≠ 0 ∧ Mspec.eval_XS = .ok (1/50, 0, 1/10) := by
  refine ⟨by norm_num [Mspec], ?_⟩
  rw [eval_XS_formulas Mspec (by norm_num [Mspec])]
  norm_num [Mspec]

/-- C3: on any measurement with `CA_eq ≠ 0`, `CA_eq ≠ d_eq` and nonzero
adsorbent mass (the data model requires `m > 0`), NS returns exactly
`Q_A = V_in * (d_in - CA_in/CA_eq * d_eq) / (1 - d_eq/CA_eq) / m`,
`V_eq = (V_in * CA_in - m * Q_A) / CA_eq`, and `Q_S = ufloat(0, 0)`:
exactly zero with zero uncertainty. -/
theorem eval_NS_formulas (M : Model) (hc : M.CA_eq ≠ 0) (hne : M.CA_eq ≠ M.d_eq)
    (hm : M.m ≠ 0) :
    M.eval_NS = .ok
      (M.V_in * (M.d_in - M.CA_in / M.CA_eq * M.d_eq) / (1 - M.d_eq / M.CA_eq) / M.m,
       ⟨0, 0⟩,
       (M.V_in * M.CA_in
         - M.m * (M.V_in * (M.d_in - M.CA_in / M.CA_eq * M.d_eq)
                    / (1 - M.d_eq / M.CA_eq) / M.m)) / M.CA_eq) := by
  have h1 : M.d_eq / M.CA_eq ≠ 1 := fun h => hne (((div_eq_one_iff_eq hc).mp h).symm)
  exact eval_NS_eq M hc (sub_ne_zero.mpr (Ne.symm h1)) hm

theorem eval_NS_formulas_witness :
    Mwit.CA_eq ≠ 0 ∧ Mwit.CA_eq ≠ Mwit.d_eq ∧ Mwit.m ≠ 0 ∧
    Mwit.eval_NS = .ok (1, ⟨0, 0⟩, 1) := by
  refine ⟨by norm_num [Mwit], by norm_num [Mwit], by norm_num [Mwit], ?_⟩
  rw [eval_NS_formulas Mwit (by norm_num [Mwit]) (by norm_num [Mwit]) (by norm_num [Mwit])]
  norm_num [Mwit]

/-- C4: on any measurement carrying a nonzero adsorbate density
`d_A = a` (a density, hence nonzero), with nonzero adsorbent mass (the
data model requires `m > 0`) and `CA_eq ≠ d_A`, VC returns exactly
`Q_A = V_in * (CA_in - CA_eq) / (m * (1 - CA_eq/d_A))`,
`V_eq = V_in - m * Q_A / d_A`,
`Q_S = (V_in * d_in - V_eq * d_eq - m * Q_A) / m`. -/
theorem eval_VC_formulas (M : Model) (a : ℚ) (hA : M.d_A = some a) (ha : a ≠ 0)
    (hm : M.m ≠ 0) (hne : M.CA_eq ≠ a) :
    M.eval_VC = .ok
      (M.V_in * (M.CA_in - M.CA_eq) / (M.m * (1 - M.CA_eq / a)),
       (M.V_in * M.d_in
          - (M.V_in - M.m * (M.V_in * (M.CA_in - M.CA_eq) / (M.m * (1 - M.CA_eq / a))) / a)
              * M.d_eq
          - M.m * (M.V_in * (M.CA_in - M.CA_eq) / (M.m * (1 - M.CA_eq / a)))) / M.m,
       M.V_in - M.m * (M.V_in * (M.CA_in - M.CA_eq) / (M.m * (1 - M.CA_eq / a))) / a) := by
  have h1 : M.CA_eq / a ≠ 1 := fun h => hne ((div_eq_one_iff_eq ha).mp h)
  exact eval_VC_eq M a hA ha (mul_ne_zero hm (sub_ne_zero.mpr (Ne.symm h1))) hm

theorem eval_VC_formulas_witness :
    Mwit.d_A = some 4 ∧ (4 : ℚ) ≠ 0 ∧ Mwit.m ≠ 0 ∧ Mwit.CA_eq ≠ 4 ∧
    Mwit.eval_VC = .ok (2, -(1/2), 1/2) := by
  refine ⟨rfl, by norm_num, by norm_num [Mwit], by norm_num [Mwit], ?_⟩
  rw [eval_VC_formulas Mwit 4 rfl (by norm_num) (by norm_num [Mwit]) (by norm_num [Mwit])]
  norm_num [Mwit]

/-- C5: NS fails with `DivisionSingularity` whenever `CA_eq = 0` or
`CA_eq = d_eq`, and VC fails with `DivisionSingularity` whenever
`CA_eq = d_A`; no result triple is returned in those cases. -/
theorem singular_denominators (M : Model) :
    ((M.CA_eq = 0 ∨ M.CA_eq = M.d_eq) → M.eval_NS = .error .DivisionSingularity) ∧
    (M.d_A = some M.CA_eq → M.eval_VC = .error .DivisionSingularity) := by
  constructor
  · rintro (hc | heq)
    · simp [Model.eval_NS, qdiv, hc, Except.bind]
    · by_cases hc : M.CA_eq = 0
      · simp [Model.eval_NS, qdiv, hc, Except.bind]
      · have hd : 1 - M.d_eq / M.CA_eq = 0 := by
          rw [← heq, div_self hc]
          ring
        simp [Model.eval_NS, qdiv, hc, hd, Except.bind]
  · intro hA
    by_cases hc : M.CA_eq = 0
    · simp [Model.eval_VC, hA, qdiv, hc, Except.bind]
    · have hden : M.m * (1 - M.CA_eq / M.CA_eq) = 0 := by
        rw [div_self hc]
        ring
      simp [Model.eval_VC, hA, qdiv, hc, hden, Except.bind]

/-- Measurement with `CA_eq = 0` and `d_A = CA_eq`. -/
def Msing : Model :=
  { V_in := 1, d_in := 1, d_eq := 1, m := 1, CA_in := 1, CA_eq := 0,
    d_A := some 0, d_S := none, V_p := none,
    V_units := "", C_units := "", m_units := "", d_units := "",
    e_V_in := none, e_d_in := none, e_d_eq := none, e_m := none, e_CA_in := none }

theorem singular_denominators_witness :
    Msing.eval_NS = .error .DivisionSingularity ∧
    Msing.eval_VC = .error .DivisionSingularity :=
  ⟨(singular_denominators Msing).1 (Or.inl rfl),
   (singular_denominators Msing).2 rfl⟩

/-- Measurement with `d_A` supplied but `d_S` absent (and `V_p` present). -/
def MnoS : Model := { Mwit with d_S := none }

theorem PF_check_order_counterexample :
    Msing.PF = .error (.MissingCalibration "V_p" "Pore volume needed for PF method") ∧
    "V_p" ≠ "d_S" := ⟨rfl, by decide⟩

/-- C6 (amended): VC on a measurement lacking `d_A` fails with the
`MissingCalibration` assertion for `d_A`; PF checks its calibrations in
the source order `d_A`, then `V_p`, then `d_S`, failing with the
corresponding assertion for the first absent one. -/
theorem missing_calibration_checks (M : Model) :
    (M.d_A = none →
      M.eval_VC = .error (.MissingCalibration "d_A" "Adsorbed density needed for VC method")) ∧
    (M.d_A = none →
      M.PF = .error (.MissingCalibration "d_A" "Adsorbed density needed for PC")) ∧
    (∀ a, M.d_A = some a → M.V_p = none →
      M.PF = .error (.MissingCalibration "V_p" "Pore volume needed for PF method")) ∧
    (∀ a p, M.d_A = some a → M.V_p = some p → M.d_S = none →
      M.PF = .error (.MissingCalibration "d_S" "Adsorbed density needed for VC method")) := by
  refine ⟨fun h => ?_, fun h => ?_, fun a hA hP => ?_, fun a p hA hP hS => ?_⟩
  · simp [Model.eval_VC, h]
  · simp [Model.PF, h]
  · simp [Model.PF, hA, hP]
  · simp [Model.PF, hA, hP, hS]

theorem missing_calibration_checks_witness :
    Mspec.eval_VC = .error (.MissingCalibration "d_A" "Adsorbed density needed for VC method") ∧
    Mspec.PF = .error (.MissingCalibration "d_A" "Adsorbed density needed for PC") ∧
    Msing.PF = .error (.MissingCalibration "V_p" "Pore volume needed for PF method") ∧
    MnoS.PF = .error (.MissingCalibration "d_S" "Adsorbed density needed for VC method") :=
  ⟨(missing_calibration_checks Mspec).1 rfl,
   (missing_calibration_checks Mspec).2.1 rfl,
   (missing_calibration_checks Msing).2.2.1 0 rfl rfl,
   (missing_calibration_checks MnoS).2.2.2 4 1 rfl rfl rfl⟩

/-- The six mandatory numeric fields and nothing else. -/
def KW6 : PyKwargs :=
  { V_in := some 1, d_in := some 1, d_eq := some 1, m := some 1,
    CA_in := some 1, CA_eq := some 1 }

/-- C7: constructing with exactly the six mandatory numeric fields fails:
`kwargs.pop('V_units')` has no default, although the docstring documents
`V_units` as optional with default `""`. -/
theorem init_six_fields_still_fails :
    Model.init KW6 = .error (.MissingField "V_units") := rfl

/-- C10: `Model.__init__` never reads `e_CA_eq` (documented but never
popped, hence never stored on the object) nor any keyword outside the
names it pops: construction neither fails nor changes on their account. -/
theorem init_ignores_unknown_kwargs (kw : PyKwargs) (e : Option ℚ) (ex : List String) :
    Model.init { kw with e_CA_eq := e, extra := ex } = Model.init kw := rfl

/-- `KW6` completed with the four unit labels: construction succeeds. -/
def KWfull : PyKwargs :=
  { KW6 with
    V_units := some "mL", C_units := some "g/mL",
    m_units := some "g", d_units := some "g/mL" }

theorem init_ignores_unknown_kwargs_witness :
    Model.init { KWfull with e_CA_eq := some 1, extra := ["bogus_key"] }
      = Model.init KWfull :=
  init_ignores_unknown_kwargs KWfull (some 1) ["bogus_key"]

/-- C9: the four solvers read only the nine numeric fields; unit labels and
`e_*` uncertainty inputs never influence the returned triples. -/
theorem solver_noninterference (M M' : Model)
    (h1 : M.V_in = M'.V_in) (h2 : M.d_in = M'.d_in) (h3 : M.d_eq = M'.d_eq)
    (h4 : M.m = M'.m) (h5 : M.CA_in = M'.CA_in) (h6 : M.CA_eq = M'.CA_eq)
    (h7 : M.d_A = M'.d_A) (h8 : M.d_S = M'.d_S) (h9 : M.V_p = M'.V_p) :
    M.eval_XS = M'.eval_XS ∧ M.eval_NS = M'.eval_NS ∧
    M.eval_VC = M'.eval_VC ∧ M.PF = M'.PF := by
  refine ⟨?_, ?_, ?_, ?_⟩ <;>
    simp only [Model.eval_XS, Model.eval_NS, Model.eval_VC, Model.PF,
      h1, h2, h3, h4, h5, h6, h7, h8, h9]

/-- `Mwit` with different unit labels and different uncertainty inputs. -/
def MwitLabels : Model :=
  { Mwit with
    V_units := "L", C_units := "mol/L", m_units := "kg", d_units := "kg/L",
    e_V_in := some (1/1000), e_d_in := some (1/100), e_d_eq := some (1/100),
    e_m := some (1/10000), e_CA_in := some (1/500) }

theorem solver_noninterference_witness :
    Mwit.eval_XS = MwitLabels.eval_XS ∧ Mwit.eval_NS = MwitLabels.eval_NS ∧
    Mwit.eval_VC = MwitLabels.eval_VC ∧ Mwit.PF = MwitLabels.PF :=
  solver_noninterference Mwit MwitLabels rfl rfl rfl rfl rfl rfl rfl rfl rfl

lemma broadcast2_of_length_eq (f : ℚ → ℚ → ℚ) (xs ys : List ℚ)
    (h : xs.length = ys.length) :
    broadcast2 f xs ys = .ok (List.zipWith f xs ys) := by
  unfold broadcast2
  rw [if_pos h]

/-- Batch with `V_in` of length 1 and the other fields of length 2. -/
def Bmix : BatchModel :=
  { V_in := [2], d_in := [5, 6], d_eq := [1, 1], m := [1, 1],
    CA_in := [3, 4], CA_eq := [1, 2] }

/-- Entry-wise description of a numpy intermediate: `l` has length `n` and
its entry `i` is `g i`. -/
def Elem (n : ℕ) (l : List ℚ) (g : ℕ → ℚ) : Prop :=
  l.length = n ∧ ∀ i, i < n → l.getD i 0 = g i

lemma Elem.get_eq {n : ℕ} {l : List ℚ} {g : ℕ → ℚ} (h : Elem n l g) {i : ℕ}
    (hi : i < n) (hb : i < l.length) : l[i] = g i := by
  have h2 := h.2 i hi
  rwa [List.getD_eq_getElem _ _ hb] at h2

lemma Elem_base (n : ℕ) (l : List ℚ) (h : l.length = n) :
    Elem n l (fun i => l.getD i 0) := ⟨h, fun _ _ => rfl⟩

lemma Elem_zipWith (f : ℚ → ℚ → ℚ) {n : ℕ} {xs ys : List ℚ} {g h : ℕ → ℚ}
    (hx : Elem n xs g) (hy : Elem n ys h) :
    Elem n (List.zipWith f xs ys) (fun i => f (g i) (h i)) := by
  have hlen : (List.zipWith f xs ys).length = n := by
    rw [List.length_zipWith, hx.1, hy.1, min_self]
  refine ⟨hlen, fun i hi => ?_⟩
  have hbz : i < (List.zipWith f xs ys).length := by rw [hlen]; exact hi
  have hbx : i < xs.length := by rw [hx.1]; exact hi
  have hby : i < ys.length := by rw [hy.1]; exact hi
  rw [List.getD_eq_getElem _ _ hbz, List.getElem_zipWith,
    hx.get_eq hi hbx, hy.get_eq hi hby]

lemma Elem_map (f : ℚ → ℚ) {n : ℕ} {xs : List ℚ} {g : ℕ → ℚ} (hx : Elem n xs g) :
    Elem n (xs.map f) (fun i => f (g i)) := by
  have hlen : (xs.map f).length = n := by rw [List.length_map, hx.1]
  refine ⟨hlen, fun i hi => ?_⟩
  have hbm : i < (xs.map f).length := by rw [hlen]; exact hi
  have hbx : i < xs.length := by rw [hx.1]; exact hi
  rw [List.getD_eq_getElem _ _ hbm, List.getElem_map, hx.get_eq hi hbx]

lemma broadcast2_elem (f : ℚ → ℚ → ℚ) {n : ℕ} {xs ys : List ℚ} {g h : ℕ → ℚ}
    (hx : Elem n xs g) (hy : Elem n ys h) :
    broadcast2 f xs ys = .ok (List.zipWith f xs ys) :=
  broadcast2_of_length_eq f xs ys (hx.1.trans hy.1.symm)

/-- Batch with all six fields of length 2 and the three calibrations
supplied as scalars. -/
def Bok : BatchModel :=
  { V_in := [1, 2], d_in := [2, 3], d_eq := [1, 1], m := [1, 2],
    CA_in := [3, 5], CA_eq := [2, 3], d_A := some 4, d_S := some 1, V_p := some 1 }

theorem batch_shape_counterexample :
    Bmix.V_in.length ≠ Bmix.d_in.length ∧
    Bmix.eval_XS = .ok ([4, 4], [4, 6], [2]) ∧
    Bok.eval_NS = .ok ([1, 2], ⟨0, 0⟩, [1, 2]) := by
  refine ⟨by decide, ?_, ?_⟩
  · norm_num [Bmix, BatchModel.eval_XS, broadcast2, Except.bind]
  · norm_num [Bok, BatchModel.eval_NS, broadcast2, Except.bind]

/-- C8 (amended): when the six `Model` fields are arrays of one common
length `n` (the calibrations staying scalars), every solver computes
element-wise and succeeds: each returned array has length `n` and its
entry `i` is the corresponding scalar formula applied to the entries `i`
of the inputs — except that NS returns its `Q_S` as the single scalar
`ufloat(0, 0)` rather than an aligned array. -/
theorem eval_batch_elementwise (B : BatchModel) (n : ℕ)
    (hV : B.V_in.length = n) (hdi : B.d_in.length = n) (hde : B.d_eq.length = n)
    (hm : B.m.length = n) (hci : B.CA_in.length = n) (hce : B.CA_eq.length = n) :
    (∃ Q_A Q_S : List ℚ, B.eval_XS = .ok (Q_A, Q_S, B.V_in) ∧
      Q_A.length = n ∧ Q_S.length = n ∧
      (∀ i, i < n → Q_A.getD i 0
        = B.V_in.getD i 0 * (B.CA_in.getD i 0 - B.CA_eq.getD i 0) / B.m.getD i 0) ∧
      (∀ i, i < n → Q_S.getD i 0
        = B.V_in.getD i 0 * ((B.d_in.getD i 0 - B.d_eq.getD i 0)
            - (B.CA_in.getD i 0 - B.CA_eq.getD i 0)) / B.m.getD i 0)) ∧
    (∃ Q_A V_eq : List ℚ, B.eval_NS = .ok (Q_A, ⟨0, 0⟩, V_eq) ∧
      Q_A.length = n ∧ V_eq.length = n ∧
      (∀ i, i < n → Q_A.getD i 0
        = B.V_in.getD i 0 * (B.d_in.getD i 0
            - B.CA_in.getD i 0 / B.CA_eq.getD i 0 * B.d_eq.getD i 0)
          / (1 - B.d_eq.getD i 0 / B.CA_eq.getD i 0) / B.m.getD i 0) ∧
      (∀ i, i < n → V_eq.getD i 0
        = (B.V_in.getD i 0 * B.CA_in.getD i 0
            - B.m.getD i 0 * Q_A.getD i 0) / B.CA_eq.getD i 0)) ∧
    (∀ a, B.d_A = some a → ∃ Q_A Q_S V_eq : List ℚ,
      B.eval_VC = .ok (Q_A, Q_S, V_eq) ∧
      Q_A.length = n ∧ Q_S.length = n ∧ V_eq.length = n ∧
      (∀ i, i < n → Q_A.getD i 0
        = B.V_in.getD i 0 * (B.CA_in.getD i 0 - B.CA_eq.getD i 0)
          / (B.m.getD i 0 * (1 - B.CA_eq.getD i 0 / a))) ∧
      (∀ i, i < n → V_eq.getD i 0
        = B.V_in.getD i 0 - B.m.getD i 0 * Q_A.getD i 0 / a) ∧
      (∀ i, i < n → Q_S.getD i 0
        = (B.V_in.getD i 0 * B.d_in.getD i 0 - V_eq.getD i 0 * B.d_eq.getD i 0
            - B.m.getD i 0 * Q_A.getD i 0) / B.m.getD i 0)) ∧
    (∀ a s p, B.d_A = some a → B.d_S = some s → B.V_p = some p → a ≠ 0 →
      ∃ Q_A Q_S V_eq : List ℚ, B.PF = .ok (Q_A, Q_S, V_eq) ∧
      Q_A.length = n ∧ Q_S.length = n ∧ V_eq.length = n ∧
      (∀ i, i < n → Q_A.getD i 0
        = (B.CA_in.getD i 0 - (B.d_in.getD i 0 / B.d_eq.getD i 0
            - p * s * B.m.getD i 0 / (B.V_in.getD i 0 * B.d_eq.getD i 0)) * B.CA_eq.getD i 0)
          / (B.m.getD i 0 / B.V_in.getD i 0
              * (1 + (s / a - 1) * B.CA_eq.getD i 0 / B.d_eq.getD i 0))) ∧
      (∀ i, i < n → Q_S.getD i 0 = (p - Q_A.getD i 0 / a) * s) ∧
      (∀ i, i < n → V_eq.getD i 0
        = (B.V_in.getD i 0 * B.CA_in.getD i 0 - B.m.getD i 0 * Q_A.getD i 0)
          / B.CA_eq.getD i 0)) := by
  have eV := Elem_base n B.V_in hV
  have edi := Elem_base n B.d_in hdi
  have ede := Elem_base n B.d_eq hde
  have em := Elem_base n B.m hm
  have eci := Elem_base n B.CA_in hci
  have ece := Elem_base n B.CA_eq hce
  refine ⟨?_, ?_, ?_, ?_⟩
  · have x1 := Elem_zipWith (fun x y => x - y) eci ece
    have x2 := Elem_zipWith (fun x y => x * y) eV x1
    have x3 := Elem_zipWith (fun x y => x / y) x2 em
    have x4 := Elem_zipWith (fun x y => x - y) edi ede
    have x6 := Elem_zipWith (fun x y => x - y) x4 x1
    have x7 := Elem_zipWith (fun x y => x * y) eV x6
    have x8 := Elem_zipWith (fun x y => x / y) x7 em
    refine ⟨_, _, ?_, x3.1, x8.1, fun i hi => x3.2 i hi, fun i hi => x8.2 i hi⟩
    simp only [BatchModel.eval_XS,
      broadcast2_elem (fun x y => x - y) eci ece,
      broadcast2_elem (fun x y => x * y) eV x1,
      broadcast2_elem (fun x y => x / y) x2 em,
      broadcast2_elem (fun x y => x - y) edi ede,
      broadcast2_elem (fun x y => x - y) x4 x1,
      broadcast2_elem (fun x y => x * y) eV x6,
      broadcast2_elem (fun x y => x / y) x7 em,
      Except.bind]
  · have n1 := Elem_zipWith (fun x y => x / y) eci ece
    have n2 := Elem_zipWith (fun x y => x * y) n1 ede
    have n3 := Elem_zipWith (fun x y => x - y) edi n2
    have n4 := Elem_zipWith (fun x y => x * y) eV n3
    have n5 := Elem_zipWith (fun x y => x / y) ede ece
    have n5m := Elem_map (fun y => 1 - y) n5
    have n6 := Elem_zipWith (fun x y => x / y) n4 n5m
    have n7 := Elem_zipWith (fun x y => x / y) n6 em
    have n8 := Elem_zipWith (fun x y => x * y) eV eci
    have n9 := Elem_zipWith (fun x y => x * y) em n7
    have n10 := Elem_zipWith (fun x y => x - y) n8 n9
    have n11 := Elem_zipWith (fun x y => x / y) n10 ece
    refine ⟨_, _, ?_, n7.1, n11.1, fun i hi => n7.2 i hi, fun i hi => ?_⟩
    · simp only [BatchModel.eval_NS,
        broadcast2_elem (fun x y => x / y) eci ece,
        broadcast2_elem (fun x y => x * y) n1 ede,
        broadcast2_elem (fun x y => x - y) edi n2,
        broadcast2_elem (fun x y => x * y) eV n3,
        broadcast2_elem (fun x y => x / y) ede ece,
        broadcast2_elem (fun x y => x / y) n4 n5m,
        broadcast2_elem (fun x y => x / y) n6 em,
        broadcast2_elem (fun x y => x * y) eV eci,
        broadcast2_elem (fun x y => x * y) em n7,
        broadcast2_elem (fun x y => x - y) n8 n9,
        broadcast2_elem (fun x y => x / y) n10 ece,
        Except.bind]
    · rw [n7.2 i hi]
      exact n11.2 i hi
  · intro a hA
    have v1 := Elem_zipWith (fun x y => x - y) eci ece
    have v2 := Elem_zipWith (fun x y => x * y) eV v1
    have vm1 := Elem_map (fun x => x / a) ece
    have vm2 := Elem_map (fun y => 1 - y) vm1
    have v3 := Elem_zipWith (fun x y => x * y) em vm2
    have v4 := Elem_zipWith (fun x y => x / y) v2 v3
    have v5 := Elem_zipWith (fun x y => x * y) em v4
    have vm3 := Elem_map (fun x => x / a) v5
    have v6 := Elem_zipWith (fun x y => x - y) eV vm3
    have v7 := Elem_zipWith (fun x y => x * y) eV edi
    have v8 := Elem_zipWith (fun x y => x * y) v6 ede
    have v9 := Elem_zipWith (fun x y => x - y) v7 v8
    have v11 := Elem_zipWith (fun x y => x - y) v9 v5
    have v12 := Elem_zipWith (fun x y => x / y) v11 em
    refine ⟨_, _, _, ?_, v4.1, v12.1, v6.1,
      fun i hi => v4.2 i hi, fun i hi => ?_, fun i hi => ?_⟩
    · simp only [BatchModel.eval_VC, hA,
        broadcast2_elem (fun x y => x - y) eci ece,
        broadcast2_elem (fun x y => x * y) eV v1,
        broadcast2_elem (fun x y => x * y) em vm2,
        broadcast2_elem (fun x y => x / y) v2 v3,
        broadcast2_elem (fun x y => x * y) em v4,
        broadcast2_elem (fun x y => x - y) eV vm3,
        broadcast2_elem (fun x y => x * y) eV edi,
        broadcast2_elem (fun x y => x * y) v6 ede,
        broadcast2_elem (fun x y => x - y) v7 v8,
        broadcast2_elem (fun x y => x - y) v9 v5,
        broadcast2_elem (fun x y => x / y) v11 em,
        Except.bind]
    · rw [v4.2 i hi]
      exact v6.2 i hi
    · rw [v4.2 i hi, v6.2 i hi]
      exact v12.2 i hi
  · intro a s p hA hS hP ha
    have p1 := Elem_zipWith (fun x y => x / y) edi ede
    have p2 := Elem_zipWith (fun x y => x * y) eV ede
    have pm1 := Elem_map (fun x => p * s * x) em
    have p3 := Elem_zipWith (fun x y => x / y) pm1 p2
    have p4 := Elem_zipWith (fun x y => x - y) p1 p3
    have p5 := Elem_zipWith (fun x y => x * y) p4 ece
    have p6 := Elem_zipWith (fun x y => x - y) eci p5
    have p7 := Elem_zipWith (fun x y => x / y) em eV
    have pm2 := Elem_map (fun x => (s / a - 1) * x) ece
    have p8 := Elem_zipWith (fun x y => x / y) pm2 ede
    have pm3 := Elem_map (fun y => 1 + y) p8
    have p9 := Elem_zipWith (fun x y => x * y) p7 pm3
    have p10 := Elem_zipWith (fun x y => x / y) p6 p9
    have pm4 := Elem_map (fun x => x / a) p10
    have pm5 := Elem_map (fun y => p - y) pm4
    have pm6 := Elem_map (fun z => z * s) pm5
    have p11 := Elem_zipWith (fun x y => x * y) eV eci
    have p12 := Elem_zipWith (fun x y => x * y) em p10
    have p13 := Elem_zipWith (fun x y => x - y) p11 p12
    have p14 := Elem_zipWith (fun x y => x / y) p13 ece
    refine ⟨_, _, _, ?_, p10.1, pm6.1, p14.1,
      fun i hi => p10.2 i hi, fun i hi => ?_, fun i hi => ?_⟩
    · simp only [BatchModel.PF, hA, hS, hP, qdiv, if_neg ha,
        broadcast2_elem (fun x y => x / y) edi ede,
        broadcast2_elem (fun x y => x * y) eV ede,
        broadcast2_elem (fun x y => x / y) pm1 p2,
        broadcast2_elem (fun x y => x - y) p1 p3,
        broadcast2_elem (fun x y => x * y) p4 ece,
        broadcast2_elem (fun x y => x - y) eci p5,
        broadcast2_elem (fun x y => x / y) em eV,
        broadcast2_elem (fun x y => x / y) pm2 ede,
        broadcast2_elem (fun x y => x * y) p7 pm3,
        broadcast2_elem (fun x y => x / y) p6 p9,
        broadcast2_elem (fun x y => x * y) eV eci,
        broadcast2_elem (fun x y => x * y) em p10,
        broadcast2_elem (fun x y => x - y) p11 p12,
        broadcast2_elem (fun x y => x / y) p13 ece,
        Except.bind]
    · rw [p10.2 i hi]
      exact pm6.2 i hi
    · rw [p10.2 i hi]
      exact p14.2 i hi

theorem eval_batch_elementwise_witness :
    (∃ Q_A Q_S : List ℚ, Bok.eval_XS = .ok (Q_A, Q_S, Bok.V_in) ∧
      Q_A.length = 2 ∧ Q_S.length = 2 ∧
      (∀ i, i < 2 → Q_A.getD i 0
        = Bok.V_in.getD i 0 * (Bok.CA_in.getD i 0 - Bok.CA_eq.getD i 0) / Bok.m.getD i 0) ∧
      (∀ i, i < 2 → Q_S.getD i 0
        = Bok.V_in.getD i 0 * ((Bok.d_in.getD i 0 - Bok.d_eq.getD i 0)
            - (Bok.CA_in.getD i 0 - Bok.CA_eq.getD i 0)) / Bok.m.getD i 0)) ∧
    (∃ Q_A V_eq : List ℚ, Bok.eval_NS = .ok (Q_A, ⟨0, 0⟩, V_eq) ∧
      Q_A.length = 2 ∧ V_eq.length = 2 ∧
      (∀ i, i < 2 → Q_A.getD i 0
        = Bok.V_in.getD i 0 * (Bok.d_in.getD i 0
            - Bok.CA_in.getD i 0 / Bok.CA_eq.getD i 0 * Bok.d_eq.getD i 0)
          / (1 - Bok.d_eq.getD i 0 / Bok.CA_eq.getD i 0) / Bok.m.getD i 0) ∧
      (∀ i, i < 2 → V_eq.getD i 0
        = (Bok.V_in.getD i 0 * Bok.CA_in.getD i 0
            - Bok.m.getD i 0 * Q_A.getD i 0) / Bok.CA_eq.getD i 0)) ∧
    (∃ Q_A Q_S V_eq : List ℚ, Bok.eval_VC = .ok (Q_A, Q_S, V_eq) ∧
      Q_A.length = 2 ∧ Q_S.length = 2 ∧ V_eq.length = 2 ∧
      (∀ i, i < 2 → Q_A.getD i 0
        = Bok.V_in.getD i 0 * (Bok.CA_in.getD i 0 - Bok.CA_eq.getD i 0)
          / (Bok.m.getD i 0 * (1 - Bok.CA_eq.getD i 0 / 4))) ∧
      (∀ i, i < 2 → V_eq.getD i 0
        = Bok.V_in.getD i 0 - Bok.m.getD i 0 * Q_A.getD i 0 / 4) ∧
      (∀ i, i < 2 → Q_S.getD i 0
        = (Bok.V_in.getD i 0 * Bok.d_in.getD i 0 - V_eq.getD i 0 * Bok.d_eq.getD i 0
            - Bok.m.getD i 0 * Q_A.getD i 0) / Bok.m.getD i 0)) ∧
    (∃ Q_A Q_S V_eq : List ℚ, Bok.PF = .ok (Q_A, Q_S, V_eq) ∧
      Q_A.length = 2 ∧ Q_S.length = 2 ∧ V_eq.length = 2 ∧
      (∀ i, i < 2 → Q_A.getD i 0
        = (Bok.CA_in.getD i 0 - (Bok.d_in.getD i 0 / Bok.d_eq.getD i 0
            - 1 * 1 * Bok.m.getD i 0 / (Bok.V_in.getD i 0 * Bok.d_eq.getD i 0)) * Bok.CA_eq.getD i 0)
          / (Bok.m.getD i 0 / Bok.V_in.getD i 0
              * (1 + ((1 : ℚ) / 4 - 1) * Bok.CA_eq.getD i 0 / Bok.d_eq.getD i 0))) ∧
      (∀ i, i < 2 → Q_S.getD i 0 = (1 - Q_A.getD i 0 / 4) * 1) ∧
      (∀ i, i < 2 → V_eq.getD i 0
        = (Bok.V_in.getD i 0 * Bok.CA_in.getD i 0 - Bok.m.getD i 0 * Q_A.getD i 0)
          / Bok.CA_eq.getD i 0)) := by
  have h := eval_batch_elementwise Bok 2 rfl rfl rfl rfl rfl rfl
  exact ⟨h.1, h.2.1, h.2.2.1 4 rfl, h.2.2.2 4 1 1 rfl rfl rfl (by norm_num)⟩

end Callapy
